import Mathlib

/-!
Verification of the DATATHON-2025 reporting scripts.

The repository loads three spreadsheets (stadium operations, merchandise
sales, fanbase engagement), cleans a handful of columns, and computes
group-wise aggregate statistics.  This file gives a shallow embedding of
the cleaning and aggregation routines and proves properties of them.

Conventions of the embedding:
- a possibly-missing cell (pandas NaN / NaT) is an `Option`;
- `Series.fillna d` is `Option.getD d` (after wrapping the filled cell
  back in `some` when a later step can again produce a missing value);
- `Series.map dict` sends a missing cell to missing and a present cell
  through the dictionary, missing on a key the dictionary lacks;
- money amounts are exact rationals, and the pandas `DataFrame.round(2)`
  is the numpy round-half-to-even to two decimal places on rationals;
- a grouped table is a list of (key, value) pairs with `Option` keys,
  since `groupby` drops rows whose key is missing.
-/

/-- The region dictionary of `run_complete_analysis.py` line 36 (also
`clean_charts_report.py` line 36 and `comprehensive_dashboard.py` line 42):
`{'Canada': 'Domestic', 'US': 'International', 'Mexico': 'International'}`
as a partial lookup. -/
def region_mapping (s : String) : Option String :=
  if s = "Canada" then some "Domestic"
  else if s = "US" then some "International"
  else if s = "Mexico" then some "International"
  else none

/-- The five-label region dictionary of `vancouver_city_fc_analysis.py`
lines 68-74: Canada to Domestic; US, Mexico, Europe, Asia to International. -/
def region_mapping_vfc (s : String) : Option String :=
  if s = "Canada" then some "Domestic"
  else if s = "US" then some "International"
  else if s = "Mexico" then some "International"
  else if s = "Europe" then some "International"
  else if s = "Asia" then some "International"
  else none

/-- One cell of `series.map(m).fillna(d)`: a missing cell stays missing
through `map` and is then filled with `d`; a present cell goes through the
dictionary with fallback `d`. -/
def map_fillna (m : String → Option String) (d : String) (cell : Option String) : String :=
  (cell.bind m).getD d

/-- The merchandise `Customer_Region` pipeline of `run_complete_analysis.py`
lines 30 and 36-39: `fillna('International')`, then
`map(region_mapping).fillna('International')`. -/
def clean_region_merch_run (cell : Option String) : String :=
  map_fillna region_mapping "International" (some (cell.getD "International"))

/-- The fanbase `Customer_Region` pipeline of `run_complete_analysis.py`
lines 36-39: no pre-fill, just `map(region_mapping).fillna('International')`. -/
def clean_region_fanbase_run (cell : Option String) : String :=
  map_fillna region_mapping "International" cell

/-- The `Customer_Region` pipeline of `vancouver_city_fc_analysis.py`
lines 57/63 and 68-78: `fillna('Unknown')`, then
`map(region_mapping_vfc).fillna('International')`. -/
def clean_region_vfc (cell : Option String) : String :=
  map_fillna region_mapping_vfc "International" (some (cell.getD "Unknown"))

/-- C1: after the region remap every cleaned `Customer_Region` value is one
of `Domestic` and `International`; it is `Domestic` exactly when the raw
value was `Canada`; a missing raw value becomes `International`.  This holds
for the merchandise and fanbase pipelines of `run_complete_analysis.py` and
for the pipeline of `vancouver_city_fc_analysis.py`. -/
theorem region_remap_binary (cell : Option String) :
    (clean_region_merch_run cell = "Domestic" ∨
       clean_region_merch_run cell = "International") ∧
    (clean_region_merch_run cell = "Domestic" ↔ cell = some "Canada") ∧
    (clean_region_fanbase_run cell = "Domestic" ∨
       clean_region_fanbase_run cell = "International") ∧
    (clean_region_fanbase_run cell = "Domestic" ↔ cell = some "Canada") ∧
    (clean_region_vfc cell = "Domestic" ∨ clean_region_vfc cell = "International") ∧
    (clean_region_vfc cell = "Domestic" ↔ cell = some "Canada") ∧
    (cell = none → clean_region_merch_run cell = "International" ∧
       clean_region_fanbase_run cell = "International" ∧
       clean_region_vfc cell = "International") := by
  cases cell with
  | none =>
      simp [clean_region_merch_run, clean_region_fanbase_run, clean_region_vfc,
        map_fillna, region_mapping, region_mapping_vfc]
  | some s =>
      simp only [clean_region_merch_run, clean_region_fanbase_run, clean_region_vfc,
        map_fillna, region_mapping, region_mapping_vfc, Option.getD_some,
        Option.some_bind, Option.some.injEq, reduceCtorEq, false_implies, and_true]
      split_ifs with h1 h2 h3 h4 h5 <;> simp_all

/-- C3: the two duplicated cleaning routines agree on every possible raw
`Customer_Region` cell, missing included: pre-filling with `Unknown` and
mapping five labels gives the same cleaned value as pre-filling with
`International` and mapping three labels. -/
theorem region_variants_agree (cell : Option String) :
    clean_region_vfc cell = clean_region_merch_run cell := by
  cases cell with
  | none =>
      simp [clean_region_vfc, clean_region_merch_run, map_fillna,
        region_mapping, region_mapping_vfc]
  | some s =>
      simp only [clean_region_vfc, clean_region_merch_run, map_fillna,
        region_mapping, region_mapping_vfc, Option.getD_some, Option.some_bind]
      split_ifs <;> rfl

/-- numpy round-half-to-even to two decimal places on exact rationals: the
semantics of the entries of pandas `DataFrame.round(2)`. -/
def round2 (q : ℚ) : ℚ :=
  let x := q * 100
  let n : ℤ :=
    if Int.fract x < 1 / 2 then ⌊x⌋
    else if 1 / 2 < Int.fract x then ⌊x⌋ + 1
    else if ⌊x⌋ % 2 = 0 then ⌊x⌋ else ⌊x⌋ + 1
  (n : ℚ) / 100

/-- `round2` is the identity on amounts already expressed in whole cents. -/
theorem round2_eq_self {q : ℚ} {z : ℤ} (hz : q * 100 = (z : ℚ)) : round2 q = q := by
  have hfr : Int.fract (q * 100) = 0 := by rw [hz]; exact Int.fract_intCast z
  have hfl : ⌊q * 100⌋ = z := by rw [hz]; exact Int.floor_intCast z
  simp only [round2, hfr, hfl]
  rw [if_pos (by norm_num : (0 : ℚ) < 1 / 2)]
  rw [← hz]
  ring

section Aggregation

variable {K : Type} [DecidableEq K]

/-- The distinct non-missing keys of a keyed column, in order of first
appearance: the index of `df.groupby(key)[val]`, which drops rows whose
key is missing. -/
def gkeys (rows : List (Option K × ℚ)) : List K :=
  (rows.filterMap Prod.fst).dedup

/-- `df.groupby(key)[val].sum()` at one group: the sum of the values of
the rows carrying that key. -/
def groupSum (rows : List (Option K × ℚ)) (k : K) : ℚ :=
  ((rows.filter (fun r => r.1 = some k)).map Prod.snd).sum

/-- `df.groupby(key)[val].count()` at one group. -/
def groupCount (rows : List (Option K × ℚ)) (k : K) : ℕ :=
  (rows.filter (fun r => r.1 = some k)).length

theorem groupSum_cons (r : Option K × ℚ) (rows : List (Option K × ℚ)) (k : K) :
    groupSum (r :: rows) k = (if r.1 = some k then r.2 else 0) + groupSum rows k := by
  by_cases h : r.1 = some k <;> simp [groupSum, List.filter_cons, h]

theorem sum_map_ite_eq_of_nodup (ks : List K) (hnd : ks.Nodup) (k0 : K)
    (hk : k0 ∈ ks) (v : ℚ) :
    (ks.map (fun k => if k0 = k then v else 0)).sum = v := by
  induction ks with
  | nil => cases hk
  | cons a ks ih =>
    rcases List.nodup_cons.mp hnd with ⟨ha, hnd'⟩
    by_cases h : k0 = a
    · subst h
      have hz : (ks.map (fun k => if k0 = k then v else 0)).sum = 0 := by
        apply List.sum_eq_zero
        intro x hx
        rcases List.mem_map.mp hx with ⟨b, hb, hbx⟩
        have hne : k0 ≠ b := fun hh => ha (hh ▸ hb)
        simp [← hbx, hne]
      simp [hz]
    · have hk' : k0 ∈ ks := by
        rcases List.mem_cons.mp hk with h1 | h1
        · exact absurd h1 h
        · exact h1
      simp [h, ih hnd' hk']

/-- Group-wise sums over any duplicate-free key list covering all rows add
up to the column total. -/
theorem sum_groupSum_eq (rows : List (Option K × ℚ)) (ks : List K)
    (hnd : ks.Nodup) (hcov : ∀ r ∈ rows, ∃ k ∈ ks, r.1 = some k) :
    (ks.map (groupSum rows)).sum = (rows.map Prod.snd).sum := by
  induction rows with
  | nil =>
    simp only [List.map_nil, List.sum_nil]
    apply List.sum_eq_zero
    intro x hx
    rcases List.mem_map.mp hx with ⟨k, _, hk⟩
    exact hk ▸ rfl
  | cons r rows ih =>
    have hcov' : ∀ x ∈ rows, ∃ k ∈ ks, x.1 = some k :=
      fun x hx => hcov x (List.mem_cons_of_mem _ hx)
    rcases hcov r (List.mem_cons_self _ _) with ⟨k0, hk0, hr⟩
    have hmap : ∀ k ∈ ks,
        groupSum (r :: rows) k = (if k0 = k then r.2 else 0) + groupSum rows k := by
      intro k _
      rw [groupSum_cons]
      congr 1
      by_cases h : k0 = k
      · subst h; simp [hr]
      · have hne : r.1 ≠ some k := by rw [hr]; simpa using h
        simp [h, hne]
    calc (ks.map (groupSum (r :: rows))).sum
        = (ks.map (fun k => (if k0 = k then r.2 else 0) + groupSum rows k)).sum := by
          rw [List.map_congr_left hmap]
      _ = (ks.map (fun k => if k0 = k then r.2 else 0)).sum
            + (ks.map (groupSum rows)).sum := by
          rw [← List.sum_map_add]
      _ = r.2 + (rows.map Prod.snd).sum := by
          rw [sum_map_ite_eq_of_nodup ks hnd k0 hk0 r.2, ih hcov']
      _ = ((r :: rows).map Prod.snd).sum := by simp

theorem mem_gkeys_of_mem {rows : List (Option K × ℚ)} {r : Option K × ℚ} {k : K}
    (hr : r ∈ rows) (hk : r.1 = some k) : k ∈ gkeys rows :=
  List.mem_dedup.mpr (List.mem_filterMap.mpr ⟨r, hr, hk⟩)

theorem groupSum_eq_zero_of_not_mem (rows : List (Option K × ℚ)) (k : K)
    (h : k ∉ gkeys rows) : groupSum rows k = 0 := by
  unfold groupSum
  have hnil : rows.filter (fun r => r.1 = some k) = [] := by
    apply List.filter_eq_nil_iff.mpr
    intro r hr hcon
    exact h (mem_gkeys_of_mem hr (by simpa using hcon))
  simp [hnil]

end Aggregation

/-- C4: the Aggregator's group-wise sums partition the total.  For a table
whose key column has no missing entry, adding the per-group sums over all
distinct key values yields the whole column's sum. -/
theorem aggregator_sums_partition_total {K : Type} [DecidableEq K]
    (rows : List (Option K × ℚ)) (h : ∀ r ∈ rows, (r.1).isSome) :
    ((gkeys rows).map (groupSum rows)).sum = (rows.map Prod.snd).sum := by
  apply sum_groupSum_eq rows (gkeys rows) (List.nodup_dedup _)
  intro r hr
  rcases Option.isSome_iff_exists.mp (h r hr) with ⟨k, hk⟩
  exact ⟨k, mem_gkeys_of_mem hr hk, hk⟩

/-- A small stadium-operations table keyed by `Source` for the C4 witness. -/
def demo_source_rows : List (Option String × ℚ) :=
  [(some "Tickets", 10), (some "Concessions", 4), (some "Tickets", 6)]

theorem aggregator_sums_partition_total_witness :
    ((gkeys demo_source_rows).map (groupSum demo_source_rows)).sum
        = (demo_source_rows.map Prod.snd).sum
      ∧ (demo_source_rows.map Prod.snd).sum = 20 :=
  ⟨aggregator_sums_partition_total demo_source_rows (by decide),
    by norm_num [demo_source_rows]⟩

/-- `analyze_revenue_trends` of `vancouver_city_fc_analysis.py` lines
186-197: group stadium `Revenue` by `Month` and merchandise `Unit_Price`
by `Sale_Month`, outer-merge the two series on the month, fill entries
missing after the merge with 0, and add the two columns. -/
def monthly_revenue {K : Type} [DecidableEq K]
    (stadium merch : List (Option K × ℚ)) : List (K × ℚ) :=
  ((gkeys stadium ++ gkeys merch).dedup).map (fun m =>
    (m, (if m ∈ gkeys stadium then groupSum stadium m else 0) +
          (if m ∈ gkeys merch then groupSum merch m else 0)))

/-- C5: in the monthly revenue-trend aggregation, every month appearing in
either source gets `Total_Revenue` equal to that month's stadium revenue
sum plus that month's merchandise revenue sum, a month absent from one
source contributing zero for it. -/
theorem monthly_total_is_sum_of_sources {K : Type} [DecidableEq K]
    (stadium merch : List (Option K × ℚ)) (m : K)
    (h : m ∈ gkeys stadium ∨ m ∈ gkeys merch) :
    (m, groupSum stadium m + groupSum merch m) ∈ monthly_revenue stadium merch := by
  unfold monthly_revenue
  apply List.mem_map.mpr
  refine ⟨m, List.mem_dedup.mpr (List.mem_append.mpr h), ?_⟩
  have e1 : (if m ∈ gkeys stadium then groupSum stadium m else 0)
      = groupSum stadium m := by
    split_ifs with h1
    · rfl
    · exact (groupSum_eq_zero_of_not_mem _ _ h1).symm
  have e2 : (if m ∈ gkeys merch then groupSum merch m else 0)
      = groupSum merch m := by
    split_ifs with h2
    · rfl
    · exact (groupSum_eq_zero_of_not_mem _ _ h2).symm
  rw [e1, e2]

/-- A stadium monthly series for the C5 witness: months 1 and 2. -/
def demo_monthly_stadium : List (Option ℕ × ℚ) := [(some 1, 100), (some 2, 50)]

/-- A merchandise monthly series for the C5 witness: months 2 and 3, so
month 3 is absent from the stadium source. -/
def demo_monthly_merch : List (Option ℕ × ℚ) := [(some 2, 30), (some 3, 20)]

theorem monthly_total_is_sum_of_sources_witness :
    ((3 : ℕ), groupSum demo_monthly_stadium 3 + groupSum demo_monthly_merch 3)
      ∈ monthly_revenue demo_monthly_stadium demo_monthly_merch :=
  monthly_total_is_sum_of_sources demo_monthly_stadium demo_monthly_merch 3 (by decide)

/-- A calendar date as held in a pandas datetime column. -/
structure SDate where
  year : ℕ
  month : ℕ
  day : ℕ
deriving DecidableEq

/-- Gregorian leap-year test. -/
def isLeap (y : ℕ) : Bool :=
  (y % 4 == 0 && y % 100 != 0) || (y % 400 == 0)

/-- Number of days in month `m` of year `y`. -/
def daysInMonth (y m : ℕ) : ℕ :=
  if m = 2 then (if isLeap y then 29 else 28)
  else if m = 4 ∨ m = 6 ∨ m = 9 ∨ m = 11 then 30
  else 31

/-- Split a character list at dashes. -/
def splitDash : List Char → List (List Char)
  | [] => [[]]
  | c :: rest =>
    match splitDash rest with
    | [] => [[c]]
    | g :: gs => if c = '-' then [] :: g :: gs else (c :: g) :: gs

/-- The numeric value of a decimal digit character. -/
def digitVal? (c : Char) : Option ℕ :=
  if '0' ≤ c ∧ c ≤ '9' then some (c.toNat - '0'.toNat) else none

def digitsToNatAux : List Char → ℕ → Option ℕ
  | [], acc => some acc
  | c :: cs, acc =>
    match digitVal? c with
    | some v => digitsToNatAux cs (acc * 10 + v)
    | none => none

/-- Parse a nonempty all-digit character list as a natural number. -/
def digitsToNat? (cs : List Char) : Option ℕ :=
  if cs.isEmpty then none else digitsToNatAux cs 0

/-- `pd.to_datetime(x, errors='coerce')` on an ISO `YYYY-MM-DD` string:
the string is parsed and validated as a calendar date, and anything that
fails to parse is coerced to missing (NaT) instead of raising. -/
def to_datetime_coerce (s : String) : Option SDate :=
  match splitDash s.toList with
  | [ys, ms, ds] =>
    match digitsToNat? ys, digitsToNat? ms, digitsToNat? ds with
    | some y, some m, some d =>
      if 1 ≤ m ∧ m ≤ 12 ∧ 1 ≤ d ∧ d ≤ daysInMonth y m then some ⟨y, m, d⟩
      else none
    | _, _, _ => none
  | _ => none

/-- `merchandise['Selling_Date'] = pd.to_datetime(merchandise['Selling_Date'],
errors='coerce')` on one cell: a missing cell stays missing. -/
def clean_selling_date (raw : Option String) : Option SDate :=
  raw.bind to_datetime_coerce

/-- `series.dt.month` on one cell: missing on NaT. -/
def dt_month (d : Option SDate) : Option ℕ := d.map SDate.month

/-- `series.dt.year` on one cell: missing on NaT. -/
def dt_year (d : Option SDate) : Option ℕ := d.map SDate.year

theorem to_datetime_month_bounds {s : String} {d : SDate}
    (h : to_datetime_coerce s = some d) : 1 ≤ d.month ∧ d.month ≤ 12 := by
  unfold to_datetime_coerce at h
  split at h
  case _ ys ms ds heq =>
    cases hy : digitsToNat? ys with
    | none => rw [hy] at h; simp at h
    | some y =>
      cases hm : digitsToNat? ms with
      | none => rw [hy, hm] at h; simp at h
      | some m =>
        cases hdd : digitsToNat? ds with
        | none => rw [hy, hm, hdd] at h; simp at h
        | some dd =>
          rw [hy, hm, hdd] at h
          dsimp only at h
          split_ifs at h with hc
          have he := Option.some.inj h
          subst he
          exact ⟨hc.1, hc.2.1⟩
  case _ => simp at h

/-- C6: for every raw `Selling_Date` cell, a successfully parsed date
yields `Sale_Month` equal to its calendar month (between 1 and 12) and
`Sale_Year` equal to its year, while a cell that fails to parse is coerced
to missing and yields missing `Sale_Month` and `Sale_Year` rather than an
error. -/
theorem sale_month_year_from_selling_date (raw : Option String) :
    (∀ d : SDate, clean_selling_date raw = some d →
        dt_month (clean_selling_date raw) = some d.month ∧
        1 ≤ d.month ∧ d.month ≤ 12 ∧
        dt_year (clean_selling_date raw) = some d.year) ∧
    (clean_selling_date raw = none →
        dt_month (clean_selling_date raw) = none ∧
        dt_year (clean_selling_date raw) = none) := by
  constructor
  · intro d hd
    have hb : 1 ≤ d.month ∧ d.month ≤ 12 := by
      cases raw with
      | none => simp [clean_selling_date] at hd
      | some s =>
          exact to_datetime_month_bounds (by simpa [clean_selling_date] using hd)
    rw [hd]
    exact ⟨rfl, hb.1, hb.2, rfl⟩
  · intro hn
    rw [hn]
    exact ⟨rfl, rfl⟩

theorem sale_month_year_from_selling_date_witness :
    clean_selling_date (some "2025-03-15") = some ⟨2025, 3, 15⟩ ∧
    dt_month (clean_selling_date (some "2025-03-15")) = some 3 ∧
    dt_year (clean_selling_date (some "2025-03-15")) = some 2025 ∧
    clean_selling_date (some "2025-13-40") = none ∧
    dt_month (clean_selling_date (some "2025-13-40")) = none := by
  have h1 : clean_selling_date (some "2025-03-15") = some ⟨2025, 3, 15⟩ := by decide
  have h2 : clean_selling_date (some "2025-13-40") = none := by decide
  refine ⟨h1, ?_, ?_, h2, ?_⟩
  · exact ((sale_month_year_from_selling_date (some "2025-03-15")).1 ⟨2025, 3, 15⟩ h1).1
  · exact ((sale_month_year_from_selling_date (some "2025-03-15")).1 ⟨2025, 3, 15⟩ h1).2.2.2
  · exact ((sale_month_year_from_selling_date (some "2025-13-40")).2 h2).1

/-- A raw merchandise-sales row as loaded from the workbook: every cell may
be missing. -/
structure MerchRow where
  Customer_Region : Option String
  Customer_Age_Group : Option String
  Selling_Date : Option String
  Item_Category : Option String
  Channel : Option String
  Promotion : Option Bool
  Unit_Price : Option ℚ
deriving DecidableEq

/-- A merchandise row after the cleaning of `run_complete_analysis.py`
lines 30-39: regions and age groups filled, the date parsed and the
derived `Sale_Month` added. -/
structure CleanedMerchRow where
  Customer_Region : String
  Customer_Age_Group : String
  Selling_Date : Option SDate
  Sale_Month : Option ℕ
  Item_Category : Option String
  Channel : Option String
  Promotion : Option Bool
  Unit_Price : Option ℚ
deriving DecidableEq

/-- A raw fanbase-engagement row. -/
structure FanRow where
  Customer_Region : Option String
  Age_Group : Option String
  Games_Attended : Option ℚ
  Seasonal_Pass : Option Bool
deriving DecidableEq

/-- A fanbase row after `run_complete_analysis.py` lines 36-39. -/
structure CleanedFanRow where
  Customer_Region : String
  Age_Group : Option String
  Games_Attended : Option ℚ
  Seasonal_Pass : Option Bool
deriving DecidableEq

/-- A stadium-operations row; `run_complete_analysis.py` never cleans it. -/
structure StadiumRow where
  Month : Option String
  Source : Option String
  Revenue : Option ℚ
deriving DecidableEq

/-- One merchandise row through `run_complete_analysis.py` lines 30-39:
`fillna` on region and age group, `to_datetime(errors='coerce')` on the
selling date, the derived `Sale_Month`, and the region remap. -/
def clean_merch_row (r : MerchRow) : CleanedMerchRow :=
  let date := clean_selling_date r.Selling_Date
  { Customer_Region := clean_region_merch_run r.Customer_Region
    Customer_Age_Group := r.Customer_Age_Group.getD "Unknown"
    Selling_Date := date
    Sale_Month := dt_month date
    Item_Category := r.Item_Category
    Channel := r.Channel
    Promotion := r.Promotion
    Unit_Price := r.Unit_Price }

/-- One fanbase row through `run_complete_analysis.py` lines 36-39: only
the region column is remapped. -/
def clean_fan_row (r : FanRow) : CleanedFanRow :=
  { Customer_Region := clean_region_fanbase_run r.Customer_Region
    Age_Group := r.Age_Group
    Games_Attended := r.Games_Attended
    Seasonal_Pass := r.Seasonal_Pass }

/-- The three loaded tables. -/
structure Tables where
  stadium : List StadiumRow
  merch : List MerchRow
  fanbase : List FanRow

/-- The three tables after cleaning. -/
structure CleanedTables where
  stadium : List StadiumRow
  merch : List CleanedMerchRow
  fanbase : List CleanedFanRow

/-- The whole cleaning step of `run_complete_analysis.py` lines 30-39:
row-wise cleaning of merchandise and fanbase; stadium operations untouched. -/
def clean_tables (t : Tables) : CleanedTables :=
  { stadium := t.stadium
    merch := t.merch.map clean_merch_row
    fanbase := t.fanbase.map clean_fan_row }

/-- C7: the cleaning step only touches the listed columns.  The stadium
table is unchanged, all three row counts are unchanged, each merchandise
row keeps its `Item_Category`, `Channel`, `Promotion` and `Unit_Price`, the
single added column is `Sale_Month` (the month of the parsed date), and
each fanbase row keeps every column except `Customer_Region`. -/
theorem clean_tables_frame (t : Tables) (r : MerchRow) (f : FanRow) :
    (clean_tables t).stadium = t.stadium ∧
    ((clean_tables t).merch).length = t.merch.length ∧
    ((clean_tables t).fanbase).length = t.fanbase.length ∧
    (clean_tables t).merch = t.merch.map clean_merch_row ∧
    (clean_merch_row r).Item_Category = r.Item_Category ∧
    (clean_merch_row r).Channel = r.Channel ∧
    (clean_merch_row r).Promotion = r.Promotion ∧
    (clean_merch_row r).Unit_Price = r.Unit_Price ∧
    (clean_merch_row r).Selling_Date = clean_selling_date r.Selling_Date ∧
    (clean_merch_row r).Sale_Month = dt_month (clean_selling_date r.Selling_Date) ∧
    (clean_fan_row f).Age_Group = f.Age_Group ∧
    (clean_fan_row f).Games_Attended = f.Games_Attended ∧
    (clean_fan_row f).Seasonal_Pass = f.Seasonal_Pass := by
  refine ⟨rfl, ?_, ?_, rfl, rfl, rfl, rfl, rfl, rfl, rfl, rfl, rfl, rfl⟩ <;>
    simp [clean_tables]

/-- `table.loc[k, 'sum']` on `df.groupby(key)[val].agg([...]).round(2)`:
indexing the two-decimal-rounded per-group sums, with a `KeyError` on a
group absent from the data. -/
def loc_sum {K : Type} [DecidableEq K] (rows : List (Option K × ℚ)) (k : K) :
    Except String ℚ :=
  if k ∈ gkeys rows then Except.ok (round2 (groupSum rows k)) else Except.error "KeyError"

/-- The promotion multiplier of `run_complete_analysis.py` line 247 and
`vancouver_city_fc_analysis.py` line 369:
`promotion_analysis.loc[True, 'sum'] / promotion_analysis.loc[False, 'sum']`
on the `groupby('Promotion')['Unit_Price']` aggregates rounded to two
decimals.  Indexing an absent group raises, and exact division by zero is
undefined; both are kept as error branches. -/
def promotion_multiplier (rows : List (Option Bool × ℚ)) : Except String ℚ :=
  match loc_sum rows true, loc_sum rows false with
  | Except.ok t, Except.ok f =>
      if f = 0 then Except.error "undefined: division by zero" else Except.ok (t / f)
  | Except.error e, _ => Except.error e
  | Except.ok _, Except.error e => Except.error e

/-- The channel advantage of `run_complete_analysis.py` line 246 and
`comprehensive_dashboard.py` line 282:
`channel_analysis.loc['Online', 'sum'] / channel_analysis.loc['Team Store', 'sum']`
on the `groupby('Channel')['Unit_Price']` aggregates rounded to two
decimals. -/
def channel_advantage (rows : List (Option String × ℚ)) : Except String ℚ :=
  match loc_sum rows "Online", loc_sum rows "Team Store" with
  | Except.ok o, Except.ok s =>
      if s = 0 then Except.error "undefined: division by zero" else Except.ok (o / s)
  | Except.error e, _ => Except.error e
  | Except.ok _, Except.error e => Except.error e

/-- C8: the promotion-multiplier and channel-advantage computations index
the grouped aggregates with no guard, but when both indexed groups are
present and the indexed divisor aggregate is nonzero, every error branch is
unreachable and each computation returns the ratio of the rounded sums. -/
theorem kpi_error_branches_unreachable
    (promo : List (Option Bool × ℚ)) (chan : List (Option String × ℚ))
    (hT : true ∈ gkeys promo) (hF : false ∈ gkeys promo)
    (hFne : round2 (groupSum promo false) ≠ 0)
    (hO : "Online" ∈ gkeys chan) (hS : "Team Store" ∈ gkeys chan)
    (hSne : round2 (groupSum chan "Team Store") ≠ 0) :
    promotion_multiplier promo
        = Except.ok (round2 (groupSum promo true) / round2 (groupSum promo false)) ∧
      channel_advantage chan
        = Except.ok (round2 (groupSum chan "Online") / round2 (groupSum chan "Team Store")) := by
  constructor
  · unfold promotion_multiplier loc_sum
    rw [if_pos hT, if_pos hF]
    simp [hFne]
  · unfold channel_advantage loc_sum
    rw [if_pos hO, if_pos hS]
    simp [hSne]

/-- A merchandise table with both promotion groups for the C8 witness. -/
def demo_promo_rows : List (Option Bool × ℚ) := [(some true, 2), (some false, 1)]

/-- A merchandise table with both channels for the C8 witness. -/
def demo_channel_rows : List (Option String × ℚ) :=
  [(some "Online", 8), (some "Team Store", 2)]

theorem kpi_error_branches_unreachable_witness :
    promotion_multiplier demo_promo_rows
        = Except.ok (round2 (groupSum demo_promo_rows true)
            / round2 (groupSum demo_promo_rows false)) ∧
      channel_advantage demo_channel_rows
        = Except.ok (round2 (groupSum demo_channel_rows "Online")
            / round2 (groupSum demo_channel_rows "Team Store")) := by
  have hF1 : groupSum demo_promo_rows false = 1 := by
    norm_num [groupSum, demo_promo_rows, List.filter_cons, List.filter_nil]
  have hS2 : groupSum demo_channel_rows "Team Store" = 2 := by
    have hne : "Online" ≠ "Team Store" := by decide
    norm_num [groupSum, demo_channel_rows, List.filter_cons, List.filter_nil, hne]
  exact kpi_error_branches_unreachable demo_promo_rows demo_channel_rows
    (by decide) (by decide)
    (by rw [hF1]; norm_num [round2, Int.fract])
    (by decide) (by decide)
    (by rw [hS2]; norm_num [round2, Int.fract])

/-- Combine the two levels of `groupby(['Item_Category','Promotion'])` into
one key: pandas drops a row when either level is missing. -/
def pair_key (c : Option String) (p : Option Bool) : Option (String × Bool) :=
  match c, p with
  | some c, some p => some (c, p)
  | _, _ => none

/-- A merchandise row for the promotion analyses: its `Item_Category`, its
`Promotion` flag (each possibly missing) and its `Unit_Price`. -/
def promo_keyed (merch : List (Option String × Option Bool × ℚ)) :
    List (Option Bool × ℚ) :=
  merch.map (fun r => (r.2.1, r.2.2))

/-- The merchandise table keyed by category and promotion together:
`merchandise.groupby(['Item_Category','Promotion'])['Unit_Price']`
(`operational_efficiency_analysis.py` line 96). -/
def cat_promo_keyed (merch : List (Option String × Option Bool × ℚ)) :
    List (Option (String × Bool) × ℚ) :=
  merch.map (fun r => (pair_key r.1 r.2.1, r.2.2))

/-- `promotion_impact.xs(p, level='Promotion')['sum'].sum()` on the
two-decimal-rounded aggregates (`operational_efficiency_analysis.py`
lines 96 and 121-122): the sum, over the categories having a group at
level `p`, of that group's rounded sum. -/
def xs_sum_total (rows : List (Option (String × Bool) × ℚ)) (p : Bool) : ℚ :=
  (((gkeys rows).filter (fun k => k.2 = p)).map
    (fun k => round2 (groupSum rows k))).sum

/-- The promotion multiplier of `operational_efficiency_analysis.py`
line 160: `promoted.sum() / non_promoted.sum()` over the per-category
rounded sums. -/
def promotion_multiplier_cats (merch : List (Option String × Option Bool × ℚ)) : ℚ :=
  xs_sum_total (cat_promo_keyed merch) true / xs_sum_total (cat_promo_keyed merch) false

theorem groupSum_filter_snd {K2 K : Type} [DecidableEq K2] [DecidableEq K]
    (rows2 : List (Option K2 × ℚ)) (π : K2 → K) (p : K) (k : K2) (hk : π k = p) :
    groupSum (rows2.filter (fun r => (r.1).map π = some p)) k = groupSum rows2 k := by
  induction rows2 with
  | nil => rfl
  | cons r rows ih =>
    rw [List.filter_cons]
    by_cases hcond : (r.1).map π = some p
    · rw [if_pos (by simpa using hcond), groupSum_cons, groupSum_cons, ih]
    · rw [if_neg (by simpa using hcond), ih, groupSum_cons]
      have hne : r.1 ≠ some k := by
        intro hh
        exact hcond (by rw [hh]; simp [hk])
      simp [hne]

theorem filter_map_proj_key {K2 K : Type} [DecidableEq K2] [DecidableEq K]
    (rows2 : List (Option K2 × ℚ)) (π : K2 → K) (p : K) :
    (rows2.map (fun r => ((r.1).map π, r.2))).filter (fun r => r.1 = some p)
      = (rows2.filter (fun r => (r.1).map π = some p)).map
          (fun r => ((r.1).map π, r.2)) := by
  induction rows2 with
  | nil => rfl
  | cons r rows ih =>
    simp only [List.map_cons, List.filter_cons]
    by_cases h : (r.1).map π = some p
    · rw [if_pos (by simpa using h), if_pos (by simpa using h), List.map_cons, ih]
    · rw [if_neg (by simpa using h), if_neg (by simpa using h)]
      exact ih

/-- Summing, over the first-level groups lying above `p`, the group sums of
a two-level grouping gives the group sum of the projected grouping at `p`. -/
theorem sum_grouped_by_proj {K2 K : Type} [DecidableEq K2] [DecidableEq K]
    (rows2 : List (Option K2 × ℚ)) (π : K2 → K) (p : K) :
    (((gkeys rows2).filter (fun k => π k = p)).map
        (fun k => groupSum rows2 k)).sum
      = groupSum (rows2.map (fun r => ((r.1).map π, r.2))) p := by
  have h1 : ∀ k ∈ (gkeys rows2).filter (fun k => π k = p),
      groupSum rows2 k
        = groupSum (rows2.filter (fun r => (r.1).map π = some p)) k := by
    intro k hkmem
    have hπ : π k = p := by simpa using List.of_mem_filter hkmem
    exact (groupSum_filter_snd rows2 π p k hπ).symm
  have hcov : ∀ r ∈ rows2.filter (fun r => (r.1).map π = some p),
      ∃ k ∈ (gkeys rows2).filter (fun k => π k = p), r.1 = some k := by
    intro r hr
    have hrows : r ∈ rows2 := List.mem_of_mem_filter hr
    have hcond : (r.1).map π = some p := by simpa using List.of_mem_filter hr
    cases hfst : r.1 with
    | none => rw [hfst] at hcond; simp at hcond
    | some k2 =>
      refine ⟨k2, List.mem_filter.mpr ⟨mem_gkeys_of_mem hrows hfst, ?_⟩, rfl⟩
      rw [hfst] at hcond
      simpa using hcond
  rw [List.map_congr_left h1,
    sum_groupSum_eq (rows2.filter (fun r => (r.1).map π = some p))
      ((gkeys rows2).filter (fun k => π k = p))
      ((List.nodup_dedup _).filter _) hcov]
  unfold groupSum
  rw [filter_map_proj_key rows2 π p, List.map_map]
  rfl

/-- With every `Item_Category` present and every (category, promotion)
group sum a whole-cent amount, the per-category rounded sums at promotion
level `p` add up to the plain `Promotion` group sum. -/
theorem xs_sum_total_eq_promo_sum (merch : List (Option String × Option Bool × ℚ))
    (p : Bool)
    (hpresent : ∀ r ∈ merch, (r.1).isSome)
    (hcents : ∀ k ∈ gkeys (cat_promo_keyed merch),
        ∃ z : ℤ, groupSum (cat_promo_keyed merch) k * 100 = (z : ℚ)) :
    xs_sum_total (cat_promo_keyed merch) p = groupSum (promo_keyed merch) p := by
  have hmp : (cat_promo_keyed merch).map (fun r => ((r.1).map Prod.snd, r.2))
      = promo_keyed merch := by
    unfold cat_promo_keyed promo_keyed
    rw [List.map_map]
    apply List.map_congr_left
    intro r hr
    rcases Option.isSome_iff_exists.mp (hpresent r hr) with ⟨c, hc⟩
    cases hp : r.2.1 with
    | none => simp [Function.comp, pair_key, hc, hp]
    | some pp => simp [Function.comp, pair_key, hc, hp]
  have hround : xs_sum_total (cat_promo_keyed merch) p
      = (((gkeys (cat_promo_keyed merch)).filter (fun k => k.2 = p)).map
          (fun k => groupSum (cat_promo_keyed merch) k)).sum := by
    unfold xs_sum_total
    refine congrArg List.sum (List.map_congr_left ?_)
    intro k hkmem
    rcases hcents k (List.mem_of_mem_filter hkmem) with ⟨z, hz⟩
    exact round2_eq_self hz
  rw [hround]
  have hproj := sum_grouped_by_proj (cat_promo_keyed merch) Prod.snd p
  rw [hmp] at hproj
  exact hproj

/-- C2 (amended): the reported promotion multipliers are ratios of rounded
sums — `run_complete_analysis.py` line 247 and
`vancouver_city_fc_analysis.py` line 369 divide the two rounded
`Promotion` group sums, while `operational_efficiency_analysis.py`
line 160 divides the sums over categories of the rounded
(`Item_Category`, `Promotion`) group sums.  When every merchandise row has
a present `Item_Category`, both `Promotion` groups are present, every such
group sum is a whole-cent amount, and the non-promoted sum is nonzero,
both reported KPIs equal the sum of `Unit_Price` over promoted rows
divided by the sum over non-promoted rows. -/
theorem promotion_multiplier_eq_ratio
    (merch : List (Option String × Option Bool × ℚ)) (zT zF : ℤ)
    (hpresent : ∀ r ∈ merch, (r.1).isSome)
    (hT : true ∈ gkeys (promo_keyed merch)) (hF : false ∈ gkeys (promo_keyed merch))
    (hzT : groupSum (promo_keyed merch) true * 100 = (zT : ℚ))
    (hzF : groupSum (promo_keyed merch) false * 100 = (zF : ℚ))
    (hcents : ∀ k ∈ gkeys (cat_promo_keyed merch),
        ∃ z : ℤ, groupSum (cat_promo_keyed merch) k * 100 = (z : ℚ))
    (hne : groupSum (promo_keyed merch) false ≠ 0) :
    promotion_multiplier (promo_keyed merch)
        = Except.ok (groupSum (promo_keyed merch) true
            / groupSum (promo_keyed merch) false) ∧
      promotion_multiplier_cats merch
        = groupSum (promo_keyed merch) true / groupSum (promo_keyed merch) false := by
  constructor
  · unfold promotion_multiplier loc_sum
    rw [if_pos hT, if_pos hF, round2_eq_self hzT, round2_eq_self hzF]
    simp [hne]
  · unfold promotion_multiplier_cats
    rw [xs_sum_total_eq_promo_sum merch true hpresent hcents,
      xs_sum_total_eq_promo_sum merch false hpresent hcents]

/-- A whole-cent merchandise table for the C2 witness: a promoted and a
non-promoted Jersey sale, promoted sum 2, non-promoted sum 1. -/
def demo_cat_promo_rows : List (Option String × Option Bool × ℚ) :=
  [(some "Jersey", some true, 2), (some "Jersey", some false, 1)]

theorem promotion_multiplier_eq_ratio_witness :
    promotion_multiplier (promo_keyed demo_cat_promo_rows)
        = Except.ok (groupSum (promo_keyed demo_cat_promo_rows) true
            / groupSum (promo_keyed demo_cat_promo_rows) false) ∧
      promotion_multiplier_cats demo_cat_promo_rows
        = groupSum (promo_keyed demo_cat_promo_rows) true
            / groupSum (promo_keyed demo_cat_promo_rows) false := by
  have hks : gkeys (cat_promo_keyed demo_cat_promo_rows)
      = [("Jersey", true), ("Jersey", false)] := by decide
  refine promotion_multiplier_eq_ratio demo_cat_promo_rows 200 100
    (by decide) (by decide) (by decide) ?_ ?_ ?_ ?_
  · norm_num [groupSum, promo_keyed, demo_cat_promo_rows,
      List.filter_cons, List.filter_nil]
  · norm_num [groupSum, promo_keyed, demo_cat_promo_rows,
      List.filter_cons, List.filter_nil]
  · intro k hk
    rw [hks] at hk
    simp only [List.mem_cons, List.not_mem_nil, or_false] at hk
    rcases hk with rfl | rfl
    · exact ⟨200, by norm_num [groupSum, cat_promo_keyed, pair_key,
        demo_cat_promo_rows, List.filter_cons, List.filter_nil]⟩
    · exact ⟨100, by norm_num [groupSum, cat_promo_keyed, pair_key,
        demo_cat_promo_rows, List.filter_cons, List.filter_nil]⟩
  · norm_num [groupSum, promo_keyed, demo_cat_promo_rows,
      List.filter_cons, List.filter_nil]

/-- The merchandise table refuting C2 as stated: one promoted sale at
$0.006 and one non-promoted sale at $1.  The script reports
`round2(0.006) / round2(1) = 0.01`, not the raw ratio `0.006`. -/
def cex_promo_rows : List (Option Bool × ℚ) := [(some true, 3 / 500), (some false, 1)]

theorem promotion_multiplier_cex :
    promotion_multiplier cex_promo_rows
        ≠ Except.ok (groupSum cex_promo_rows true / groupSum cex_promo_rows false) := by
  have ht : groupSum cex_promo_rows true = 3 / 500 := by
    norm_num [groupSum, cex_promo_rows]
  have hf : groupSum cex_promo_rows false = 1 := by
    norm_num [groupSum, cex_promo_rows]
  have hm : promotion_multiplier cex_promo_rows = Except.ok (1 / 100) := by
    unfold promotion_multiplier loc_sum
    rw [if_pos (by decide : true ∈ gkeys cex_promo_rows),
      if_pos (by decide : false ∈ gkeys cex_promo_rows), ht, hf]
    norm_num [round2, Int.fract]
  rw [hm, ht, hf]
  simp only [Except.ok.injEq, ne_eq]
  norm_num

/-- The rounded `'sum'` column of
`stadium_ops.groupby('Source')['Revenue'].agg(['sum','mean','count']).round(2)`
(`operational_efficiency_analysis.py` line 23). -/
def agg_sum_r2 {K : Type} [DecidableEq K] (rows : List (Option K × ℚ)) (k : K) : ℚ :=
  round2 (groupSum rows k)

/-- The rounded `'mean'` column of the same aggregate table. -/
def agg_mean_r2 {K : Type} [DecidableEq K] (rows : List (Option K × ℚ)) (k : K) : ℚ :=
  round2 (groupSum rows k / (groupCount rows k : ℚ))

/-- `source_efficiency['Revenue_per_Event'] =
source_efficiency['sum'] / source_efficiency['count']`
(`operational_efficiency_analysis.py` line 24): the rounded sum divided by
the event count. -/
def revenue_per_event {K : Type} [DecidableEq K]
    (rows : List (Option K × ℚ)) (k : K) : ℚ :=
  agg_sum_r2 rows k / (groupCount rows k : ℚ)

/-- The stadium table refuting C10 as stated: one source with two events
of revenue $0.333 each.  `Revenue_per_Event` is
`round2(0.666) / 2 = 0.335`, while the rounded mean is
`round2(0.333) = 0.33`. -/
def cex_eff_rows : List (Option String × ℚ) :=
  [(some "Gate", 333 / 1000), (some "Gate", 333 / 1000)]

theorem revenue_per_event_cex :
    revenue_per_event cex_eff_rows "Gate" ≠ agg_mean_r2 cex_eff_rows "Gate" := by
  have hs : groupSum cex_eff_rows "Gate" = 333 / 500 := by
    norm_num [groupSum, cex_eff_rows, List.filter_cons, List.filter_nil]
  have hc : groupCount cex_eff_rows "Gate" = 2 := by
    norm_num [groupCount, cex_eff_rows, List.filter_cons, List.filter_nil]
  unfold revenue_per_event agg_sum_r2 agg_mean_r2
  rw [hs, hc]
  norm_num [round2, Int.fract]

/-- C10 (amended): for a nonempty Source group whose mean revenue is a
whole-cent amount, `Revenue_per_Event` (the rounded group sum divided by
the event count) equals the group's rounded `'mean'` aggregate.  In
general the two can differ, since the sum is rounded before the division
while the mean is rounded after it. -/
theorem revenue_per_event_eq_mean {K : Type} [DecidableEq K]
    (rows : List (Option K × ℚ)) (k : K) (z : ℤ)
    (hc : groupCount rows k ≠ 0)
    (hz : groupSum rows k / (groupCount rows k : ℚ) * 100 = (z : ℚ)) :
    revenue_per_event rows k = agg_mean_r2 rows k := by
  have hcQ : (groupCount rows k : ℚ) ≠ 0 := Nat.cast_ne_zero.mpr hc
  have hsum : groupSum rows k * 100 = ((z * (groupCount rows k : ℤ) : ℤ) : ℚ) := by
    push_cast
    field_simp at hz
    linarith [hz]
  unfold revenue_per_event agg_sum_r2 agg_mean_r2
  rw [round2_eq_self hsum, round2_eq_self hz]

/-- A stadium table for the C10 witness: one source, two events, revenues
$3 and $1, mean $2. -/
def demo_eff_rows : List (Option String × ℚ) := [(some "Gate", 3), (some "Gate", 1)]

theorem revenue_per_event_eq_mean_witness :
    revenue_per_event demo_eff_rows "Gate" = agg_mean_r2 demo_eff_rows "Gate" :=
  revenue_per_event_eq_mean demo_eff_rows "Gate" 200 (by decide)
    (by norm_num [groupSum, groupCount, demo_eff_rows, List.filter_cons, List.filter_nil])

/-- A loaded spreadsheet: its column names and its rows of cells. -/
structure Table where
  cols : List String
  rows : List (List String)
deriving DecidableEq

/-- The three workbook names hard-coded in `convert_excel_to_csv.py`
lines 12-16. -/
def excel_files : List String :=
  ["BOLT UBC First Byte - Stadium Operations.xlsx",
   "BOLT UBC First Byte - Merchandise Sales.xlsx",
   "BOLT UBC First Byte - Fanbase Engagement.xlsx"]

/-- `excel_file.replace('.xlsx', '.csv')` (`convert_excel_to_csv.py`
line 26). -/
def csv_name (s : String) : String := s.replace ".xlsx" ".csv"

/-- The content written by `df.to_csv(path, index=...)`: when the index is
kept, the row label is prepended to the header line and to every row; with
`index=False` the file holds exactly the table's columns and rows. -/
def csv_content (index : Bool) (t : Table) : List (List String) :=
  if index then
    ("" :: t.cols) :: (t.rows.enum.map (fun p => (toString p.1) :: p.2))
  else t.cols :: t.rows

/-- One loop iteration of `convert_excel_to_csv` (lines 18-35): the
filesystem is an association list from names of existing Excel files to
their tables, so `os.path.exists` is a successful lookup.  A found file
adds one CSV write and a `Converting` line; a missing file adds only a
`File not found` line. -/
def convert_step (fs : List (String × Table))
    (acc : List (String × List (List String)) × List String) (name : String) :
    List (String × List (List String)) × List String :=
  match fs.lookup name with
  | some df =>
      (acc.1 ++ [(csv_name name, csv_content false df)],
       acc.2 ++ ["Converting " ++ name ++ "..."])
  | none => (acc.1, acc.2 ++ ["File not found: " ++ name])

/-- `convert_excel_to_csv()`: fold the loop body over the three hard-coded
names, collecting the written CSV files and the console lines. -/
def convert_excel_to_csv (fs : List (String × Table)) :
    List (String × List (List String)) × List String :=
  excel_files.foldl (convert_step fs) ([], [])

theorem convert_fold_spec (fs : List (String × Table)) (names : List String)
    (acc : List (String × List (List String)) × List String) :
    names.foldl (convert_step fs) acc
      = (acc.1 ++ names.filterMap
            (fun n => (fs.lookup n).map (fun df => (csv_name n, csv_content false df))),
         acc.2 ++ names.map (fun n =>
            match fs.lookup n with
            | some _ => "Converting " ++ n ++ "..."
            | none => "File not found: " ++ n)) := by
  induction names generalizing acc with
  | nil => simp
  | cons n names ih =>
    simp only [List.foldl_cons, List.filterMap_cons, List.map_cons]
    rw [ih]
    cases h : fs.lookup n with
    | none => simp [convert_step, h]
    | some df => simp [convert_step, h]

/-- C9: `convert_excel_to_csv` treats the three named files independently:
the written CSVs are exactly one per existing file, holding precisely the
table's columns and rows with no added index column, and each missing file
contributes only its `File not found` line instead of raising. -/
theorem convert_excel_to_csv_spec (fs : List (String × Table)) :
    (convert_excel_to_csv fs).1
        = excel_files.filterMap
            (fun n => (fs.lookup n).map (fun df => (csv_name n, csv_content false df))) ∧
      (convert_excel_to_csv fs).2
        = excel_files.map (fun n =>
            match fs.lookup n with
            | some _ => "Converting " ++ n ++ "..."
            | none => "File not found: " ++ n) ∧
      ∀ t : Table, csv_content false t = t.cols :: t.rows := by
  unfold convert_excel_to_csv
  rw [convert_fold_spec]
  exact ⟨by simp, by simp, fun t => rfl⟩

theorem region_remap_binary_witness :
    clean_region_merch_run (some "Canada") = "Domestic" ∧
      clean_region_vfc none = "International" :=
  ⟨(region_remap_binary (some "Canada")).2.1.mpr rfl,
    ((region_remap_binary none).2.2.2.2.2.2 rfl).2.2⟩
